import Mathlib

/-!
Verification of the request/response protocol core of `perplexity_api.py`
(class `PerplexityAPI`).  The Python code is shallowly embedded: JSON values
are an inductive type, `json.loads` is a fuel-based recursive-descent parser
following Python's strict JSON grammar, the stream handler and `call_api`
are pure functions, and the network is an oracle `RequestData → HttpResponse`
together with an explicit trace of the requests sent.
-/

namespace SonarApi

/-- JSON values as produced by Python's `json.loads`.  Numbers keep their
source lexeme (no claim depends on numeric values beyond truthiness);
objects are association lists in source order, with later duplicate keys
shadowing earlier ones exactly as in a Python dict. -/
inductive Json where
  | null
  | bool (b : Bool)
  | num (lex : String)
  | str (s : String)
  | arr (elems : List Json)
  | obj (fields : List (String × Json))

/-- Python dict lookup on a JSON object: the last binding of a key wins,
mirroring how duplicate keys behave in a dict literal / `json.loads`. -/
def pyGet : List (String × Json) → String → Option Json
  | [], _ => none
  | (k, v) :: fs, key =>
    match pyGet fs key with
    | some v2 => some v2
    | none => if k = key then some v else none

/-- Digits of the mantissa of a numeric lexeme (everything before `e`/`E`,
keeping only digit characters). -/
def mantissaDigits (lex : String) : List Char :=
  (lex.toList.takeWhile (fun c => c ≠ 'e' ∧ c ≠ 'E')).filter Char.isDigit

/-- A numeric lexeme denotes zero iff it has digits and they are all `0`
(`NaN` / `Infinity` have no digits and are truthy in Python). -/
def numIsZero (lex : String) : Bool :=
  let ds := mantissaDigits lex
  !ds.isEmpty && ds.all (fun c => c = '0')

/-- Python truthiness of a JSON value (`bool(x)`): `None`, `False`, zero
numbers, and empty strings/lists/dicts are falsy. -/
def pyTruthy : Json → Bool
  | .null => false
  | .bool b => b
  | .num lex => !numIsZero lex
  | .str s => !s.isEmpty
  | .arr es => !es.isEmpty
  | .obj fs => !fs.isEmpty

/-- Python `needle in hay` for strings: contiguous substring test. -/
def hasSubstr (needle hay : String) : Bool :=
  decide (needle.toList <:+: hay.toList)

/-- JSON insignificant whitespace (RFC 8259 / Python json). -/
def jsonWs (c : Char) : Bool :=
  c = ' ' || c = '\t' || c = '\n' || c = '\r'

/-- Drop leading JSON whitespace. -/
def skipWs : List Char → List Char
  | [] => []
  | c :: cs => if jsonWs c then skipWs cs else c :: cs

/-- Hex digit value, as accepted in a `\u` escape. -/
def hexVal (c : Char) : Option Nat :=
  if '0' ≤ c ∧ c ≤ '9' then some (c.toNat - '0'.toNat)
  else if 'a' ≤ c ∧ c ≤ 'f' then some (c.toNat - 'a'.toNat + 10)
  else if 'A' ≤ c ∧ c ≤ 'F' then some (c.toNat - 'A'.toNat + 10)
  else none

/-- Value of four hex digits. -/
def hex4 (a b c d : Char) : Option Nat := do
  let va ← hexVal a
  let vb ← hexVal b
  let vc ← hexVal c
  let vd ← hexVal d
  pure (((va * 16 + vb) * 16 + vc) * 16 + vd)

/-- Body of a JSON string literal after the opening quote, mirroring
Python's strict decoder: raw control characters (< 0x20) are rejected,
the standard escapes are honoured, and `\u` escapes combine surrogate
pairs.  (Python would additionally accept a lone surrogate, which a Lean
`String` cannot hold; such inputs fail here.  No claim involves them.) -/
def parseStrAux : List Char → List Char → Option (String × List Char)
  | acc, [] => none
  | acc, '"' :: cs => some (String.mk acc.reverse, cs)
  | acc, '\\' :: '"' :: cs => parseStrAux ('"' :: acc) cs
  | acc, '\\' :: '\\' :: cs => parseStrAux ('\\' :: acc) cs
  | acc, '\\' :: '/' :: cs => parseStrAux ('/' :: acc) cs
  | acc, '\\' :: 'b' :: cs => parseStrAux ('\x08' :: acc) cs
  | acc, '\\' :: 'f' :: cs => parseStrAux ('\x0c' :: acc) cs
  | acc, '\\' :: 'n' :: cs => parseStrAux ('\n' :: acc) cs
  | acc, '\\' :: 'r' :: cs => parseStrAux ('\r' :: acc) cs
  | acc, '\\' :: 't' :: cs => parseStrAux ('\t' :: acc) cs
  | acc, '\\' :: 'u' :: h1 :: h2 :: h3 :: h4 :: cs =>
    match hex4 h1 h2 h3 h4 with
    | none => none
    | some n =>
      if h : n < 0xd800 ∨ (0xe000 ≤ n ∧ n < 0x110000) then
        parseStrAux (Char.ofNatAux n (by rcases h with h | h <;> simp [UInt32.isValidChar, Nat.isValidChar] <;> omega) :: acc) cs
      else
        match cs with
        | '\\' :: 'u' :: g1 :: g2 :: g3 :: g4 :: cs2 =>
          match hex4 g1 g2 g3 g4 with
          | none => none
          | some m =>
            if hsur : 0xd800 ≤ n ∧ n < 0xdc00 ∧ 0xdc00 ≤ m ∧ m < 0xe000 then
              let cp := 0x10000 + (n - 0xd800) * 0x400 + (m - 0xdc00)
              parseStrAux (Char.ofNatAux cp (by simp [UInt32.isValidChar, Nat.isValidChar]; omega) :: acc) cs2
            else none
        | _ => none
  | acc, '\\' :: _ => none
  | acc, c :: cs => if c.toNat < 0x20 then none else parseStrAux (c :: acc) cs

/-- Take a maximal run of ASCII digits. -/
def spanDigits : List Char → List Char × List Char
  | [] => ([], [])
  | c :: cs =>
    if c.isDigit then
      let (ds, r) := spanDigits cs
      (c :: ds, r)
    else ([], c :: cs)

/-- Integer part of a JSON number: `0`, or a nonzero digit followed by
digits (leading zeros are rejected, as in Python's json). -/
def parseIntPart : List Char → Option (List Char × List Char)
  | [] => none
  | '0' :: cs => some (['0'], cs)
  | c :: cs =>
    if c.isDigit then
      let (ds, r) := spanDigits cs
      some (c :: ds, r)
    else none

/-- Optional fraction part `.digits`. -/
def parseFrac : List Char → Option (List Char × List Char)
  | '.' :: cs =>
    match spanDigits cs with
    | ([], _) => none
    | (ds, r) => some ('.' :: ds, r)
  | cs => some ([], cs)

/-- Optional exponent part `[eE][+-]?digits`. -/
def parseExpPart : List Char → Option (List Char × List Char)
  | [] => some ([], [])
  | c :: cs =>
    if c = 'e' ∨ c = 'E' then
      let (sgn, cs2) :=
        match cs with
        | '+' :: r => (['+'], r)
        | '-' :: r => (['-'], r)
        | r => (([] : List Char), r)
      match spanDigits cs2 with
      | ([], _) => none
      | (ds, r) => some (c :: (sgn ++ ds), r)
    else some ([], c :: cs)

/-- A JSON number lexeme `-? int frac? exp?`. -/
def parseNumber (cs : List Char) : Option (String × List Char) :=
  let (neg, cs1) :=
    match cs with
    | '-' :: r => ((['-'] : List Char), r)
    | r => (([] : List Char), r)
  match parseIntPart cs1 with
  | none => none
  | some (ip, cs2) =>
    match parseFrac cs2 with
    | none => none
    | some (fp, cs3) =>
      match parseExpPart cs3 with
      | none => none
      | some (ep, cs4) => some (String.mk (neg ++ ip ++ fp ++ ep), cs4)

/-- The opening brace character of a JSON object. -/
def lbrace : Char := Char.ofNat 123

/-- The closing brace character of a JSON object. -/
def rbrace : Char := Char.ofNat 125

mutual

/-- Recursive-descent JSON value parser (fuel-based; fuel is sized so that
it never runs out on real input).  Accepts exactly what Python's
`json.loads` accepts: `true`/`false`/`null`, the constants `NaN`,
`Infinity`, `-Infinity`, strings, numbers, arrays, objects. -/
def parseValue : Nat → List Char → Option (Json × List Char)
  | 0, _ => none
  | Nat.succ fuel, cs =>
    match cs with
    | 't' :: 'r' :: 'u' :: 'e' :: r => some (.bool true, r)
    | 'f' :: 'a' :: 'l' :: 's' :: 'e' :: r => some (.bool false, r)
    | 'n' :: 'u' :: 'l' :: 'l' :: r => some (.null, r)
    | 'N' :: 'a' :: 'N' :: r => some (.num "NaN", r)
    | 'I' :: 'n' :: 'f' :: 'i' :: 'n' :: 'i' :: 't' :: 'y' :: r => some (.num "Infinity", r)
    | '-' :: 'I' :: 'n' :: 'f' :: 'i' :: 'n' :: 'i' :: 't' :: 'y' :: r => some (.num "-Infinity", r)
    | '"' :: r => (parseStrAux [] r).map (fun p => (.str p.1, p.2))
    | c :: r =>
      if c = lbrace then parseObjBody fuel (skipWs r)
      else if c = '[' then parseArrBody fuel (skipWs r)
      else (parseNumber (c :: r)).map (fun p => (.num p.1, p.2))
    | [] => none

/-- Object body after the opening brace (leading whitespace skipped). -/
def parseObjBody : Nat → List Char → Option (Json × List Char)
  | 0, _ => none
  | Nat.succ fuel, cs =>
    match cs with
    | c :: r => if c = rbrace then some (.obj [], r) else parseMembers fuel (c :: r) []
    | [] => none

/-- Members of a JSON object: `"key" : value` pairs separated by commas. -/
def parseMembers : Nat → List Char → List (String × Json) → Option (Json × List Char)
  | 0, _, _ => none
  | Nat.succ fuel, cs, acc =>
    match cs with
    | '"' :: r =>
      match parseStrAux [] r with
      | none => none
      | some (k, r1) =>
        match skipWs r1 with
        | ':' :: r2 =>
          match parseValue fuel (skipWs r2) with
          | none => none
          | some (v, r3) =>
            match skipWs r3 with
            | ',' :: r4 => parseMembers fuel (skipWs r4) (acc ++ [(k, v)])
            | c :: r4 => if c = rbrace then some (.obj (acc ++ [(k, v)]), r4) else none
            | [] => none
        | _ => none
    | _ => none

/-- Array body after the opening bracket (leading whitespace skipped). -/
def parseArrBody : Nat → List Char → Option (Json × List Char)
  | 0, _ => none
  | Nat.succ fuel, cs =>
    match cs with
    | ']' :: r => some (.arr [], r)
    | _ => parseItems fuel cs []

/-- Items of a JSON array, separated by commas. -/
def parseItems : Nat → List Char → List Json → Option (Json × List Char)
  | 0, _, _ => none
  | Nat.succ fuel, cs, acc =>
    match parseValue fuel cs with
    | none => none
    | some (v, r) =>
      match skipWs r with
      | ',' :: r2 => parseItems fuel (skipWs r2) (acc ++ [v])
      | ']' :: r2 => some (.arr (acc ++ [v]), r2)
      | _ => none

end

/-- Model of Python's `json.loads`: parse one JSON value surrounded only by
whitespace; anything else (including trailing data) is a decode error,
returned as `none` (`json.JSONDecodeError`). -/
def pyJsonLoads (s : String) : Option Json :=
  match parseValue ((s.length + 1) * 4) (skipWs s.toList) with
  | some (j, rest) => if skipWs rest = [] then some j else none
  | none => none

/-- Model of Python's `str.strip()` with no argument: drop leading and
trailing whitespace.  (`Char.isWhitespace` covers space, tab, CR, LF; the
few extra Python whitespace characters never occur in event-stream lines.) -/
def pyStrip (s : String) : String :=
  String.mk (((s.toList.dropWhile Char.isWhitespace).reverse.dropWhile Char.isWhitespace).reverse)

/-- Line 232-233 of `_handle_stream`: remove the leading `"data: "`
event-stream marker when present (`line_text.startswith` + `line_text[6:]`). -/
def stripDataHeader (s : String) : String :=
  match s.toList with
  | 'd' :: 'a' :: 't' :: 'a' :: ':' :: ' ' :: rest => String.mk rest
  | _ => s

/-- Lines 240-242 of `_handle_stream`:
`content = json_response['choices'][0].get('delta', {}).get('content', '')`
guarded by `if json_response.get('choices'):`, then `if content:`.
Returns the content value that gets printed, or `none` when nothing is
printed for this chunk — either because a guard is falsy or because the
attribute/index chain raises (`except Exception`: the line is skipped). -/
def deltaContent (j : Json) : Option Json :=
  match j with
  | .obj fs =>
    match pyGet fs "choices" with
    | some c =>
      if pyTruthy c then
        match c with
        | .arr (c0 :: _) =>
          match c0 with
          | .obj f0 =>
            match (pyGet f0 "delta").getD (.obj []) with
            | .obj fd =>
              let content := (pyGet fd "content").getD (.str "")
              if pyTruthy content then some content else none
            | _ => none
          | _ => none
        | _ => none
      else none
    | none => none
  | _ => none

/-- What processing one stream line does. -/
inductive LineStep where
  | frag (c : Json)
  | skip
  | done

/-- One iteration of the `for line in response.iter_lines()` loop of
`_handle_stream` (lines 228-249): empty lines are skipped, the `"data: "`
marker is stripped, the trimmed `"[DONE]"` sentinel breaks the loop, a JSON
decode failure (and any other per-line exception) skips the line, and a
truthy `choices[0].delta.content` is emitted. -/
def processLine (line : String) : LineStep :=
  if line.toList = [] then .skip
  else
    let t := stripDataHeader line
    if pyStrip t = "[DONE]" then .done
    else
      match pyJsonLoads t with
      | none => .skip
      | some j =>
        match deltaContent j with
        | some c => .frag c
        | none => .skip

/-- The sequence of content fragments printed by `_handle_stream` for a
given sequence of lines: the loop of lines 227-249. -/
def streamFragments : List String → List Json
  | [] => []
  | l :: ls =>
    match processLine l with
    | .done => []
    | .skip => streamFragments ls
    | .frag c => c :: streamFragments ls

/-- One entry of the `self.models` catalog (lines 25-73): a model
descriptor.  `mtype` embeds the `"type"` key.  Optional keys are `Option`
fields defaulting to `none`. -/
structure ModelInfo where
  name : String
  description : String
  mtype : String
  has_web_search : Bool
  context_length : Nat
  max_output_tokens : Option Nat := none
  features : Option (List String) := none
  note : Option String := none

/-- The `self.models` dict of lines 25-73, in definition order. -/
def models : List (String × ModelInfo) :=
  [("1", { name := "sonar"
           description := "Lightweight search model (128k context) - Best for quick factual queries and summaries"
           mtype := "search", has_web_search := true, context_length := 128000 }),
   ("2", { name := "sonar-pro"
           description := "Advanced search model (200k context) - Best for complex queries and follow-ups"
           mtype := "search", has_web_search := true, context_length := 200000
           max_output_tokens := some 8000 }),
   ("3", { name := "sonar-reasoning"
           description := "Fast reasoning model (128k context) - Best for quick problem-solving with search"
           mtype := "reasoning", has_web_search := true, context_length := 128000
           features := some ["Chain of Thought (CoT)"] }),
   ("4", { name := "sonar-reasoning-pro"
           description := "Premier reasoning model (128k context) - Powered by DeepSeek R1 with CoT"
           mtype := "reasoning", has_web_search := true, context_length := 128000
           features := some ["Chain of Thought (CoT)"] }),
   ("5", { name := "sonar-deep-research"
           description := "Expert research model (128k context) - Best for comprehensive reports and analysis"
           mtype := "research", has_web_search := true, context_length := 128000
           note := some "May take 30+ minutes for complex tasks" }),
   ("6", { name := "r1-1776"
           description := "Offline chat model (128k context) - No web search, best for creative content"
           mtype := "offline", has_web_search := false, context_length := 128000
           note := some "Post-trained for uncensored, unbiased, and factual information" })]

/-- Line 125: `valid_models = [m["name"] for m in self.models.values()]`. -/
def valid_models : List String := models.map (fun p => p.2.name)

/-- Line 127: the error message printed for an unknown model name. -/
def invalidModelMessage (model : String) : String :=
  "Error: Invalid model \x27" ++ model ++ "\x27. Available models are: " ++
    String.intercalate ", " valid_models

/-- A message as passed by callers: a Python `Dict[str, str]`, embedded as
an association list in which a later binding of a key shadows an earlier
one (Python dict literal semantics). -/
abbrev PyMsg := List (String × String)

/-- Dict lookup on a message: the last binding of a key wins. -/
def pyGetS : PyMsg → String → Option String
  | [], _ => none
  | (k, v) :: fs, key =>
    match pyGetS fs key with
    | some v2 => some v2
    | none => if k = key then some v else none

/-- The closed role set of line 152. -/
def roles : List String := ["system", "user", "assistant"]

/-- Message of the `ValueError` raised at line 151. -/
def fmtErrorMsg : String :=
  "Invalid message format. Each message must have \x27role\x27 and \x27content\x27 fields."

/-- Message of the `ValueError` raised at line 153. -/
def roleErrorMsg : String :=
  "Invalid role. Must be one of: system, user, assistant"

/-- The two checks of lines 150-153 on one message: missing `role` or
`content` key first, then role outside the closed set.  (The
`isinstance(msg, dict)` check always passes in this embedding, where a
message is a dict by construction.)  Returns the `ValueError` message when
a check fails. -/
def msgCheck (m : PyMsg) : Option String :=
  if (pyGetS m "role").isNone ∨ (pyGetS m "content").isNone then some fmtErrorMsg
  else
    match pyGetS m "role" with
    | some r => if r ∈ roles then none else some roleErrorMsg
    | none => some fmtErrorMsg

/-- The `for msg in messages` validation loop of lines 149-153: the first
failing check raises; `none` means all messages passed. -/
def firstMsgError : List PyMsg → Option String
  | [] => none
  | m :: ms =>
    match msgCheck m with
    | some e => some e
    | none => firstMsgError ms

/-- Lines 136-146: the two messages synthesized when the caller supplies no
explicit message list. -/
def defaultMessages (system_prompt prompt : String) : List PyMsg :=
  [[("role", "system"), ("content", system_prompt)],
   [("role", "user"), ("content", prompt)]]

/-- The parameters of `call_api` (lines 97-107), with the Python default
values as structure-field defaults.  `temperature` is embedded as a
rational: the clamp `max(0.0, min(1.0, t))` computes identically on IEEE
doubles and on the rationals they denote. -/
structure CallInputs where
  prompt : String
  model : String := "sonar"
  system_prompt : String := "Be precise and concise."
  temperature : ℚ := 7/10
  max_tokens : Option Int := none
  stream : Bool := false
  messages : Option (List PyMsg) := none
  verify_web : Bool := false

/-- The serialized request payload `data` of lines 155-168.  `max_tokens`
is `none` exactly when the key is absent from the payload; `stream` is
`true` exactly when the payload carries `"stream": true` (and the `Accept`
header requests an event stream). -/
structure RequestData where
  model : String
  messages : List PyMsg
  temperature : ℚ
  max_tokens : Option Int
  stream : Bool

/-- Lines 155-168: build the request payload, clamping `temperature` into
`[0, 1]` and `max_tokens` (when supplied) to at least `1`. -/
def buildData (args : CallInputs) (msgs : List PyMsg) : RequestData :=
  { model := args.model
    messages := msgs
    temperature := max 0 (min 1 args.temperature)
    max_tokens := args.max_tokens.map (fun m => max 1 m)
    stream := args.stream }

/-- What the network returns for one `requests.post`: the status code, the
body used by `response.json()` / `response.text`, and the line sequence
used by `response.iter_lines()` when streaming. -/
structure HttpResponse where
  status : Nat
  body : String
  lines : List String

/-- How one invocation of `call_api` ends: `retNone` models `return None`
(every error path, and the streaming path, line 194, since
`_handle_stream` returns `None`); `raiseValueError` models the uncaught
`ValueError` of lines 151/153; `retResult` models returning the decoded
JSON object (line 202). -/
inductive CallOutcome where
  | retNone
  | raiseValueError (msg : String)
  | retResult (j : Json)

/-- Line 197: `'choices' not in result or not result['choices']` and
line 202.  When `result` is not a dict, either the membership test or the
subscript raises, the exception is caught at lines 204-222, and the call
returns `None`; so every non-dict decodes to `retNone`. -/
def syncHandle (j : Json) : CallOutcome :=
  match j with
  | .obj fs =>
    match pyGet fs "choices" with
    | none => .retNone
    | some c => if pyTruthy c then .retResult j else .retNone
  | _ => .retNone

/-- Lines 136-222 of `call_api`, after model validation and the optional
capability probe: synthesize/validate messages, build `data`, send it
(recorded in the request trace), and handle the response.
`raise_for_status()` raises `HTTPError` for status codes 400-599; every
exception of the `try` block is caught and turned into `return None`. -/
def call_api_rest (tr : RequestData → HttpResponse) (args : CallInputs) :
    CallOutcome × List RequestData :=
  let msgs := args.messages.getD (defaultMessages args.system_prompt args.prompt)
  match firstMsgError msgs with
  | some e => (.raiseValueError e, [])
  | none =>
    let data := buildData args msgs
    let resp := tr data
    if 400 ≤ resp.status ∧ resp.status ≤ 599 then (.retNone, [data])
    else if args.stream then (.retNone, [data])
    else
      match pyJsonLoads resp.body with
      | none => (.retNone, [data])
      | some j => (syncHandle j, [data])

/-- `call_api` as invoked from `verify_web_search` (lines 81-87): the
default `verify_web=False` path, so model validation (lines 124-128)
followed by `call_api_rest`. -/
def call_api_noverify (tr : RequestData → HttpResponse) (args : CallInputs) :
    CallOutcome × List RequestData :=
  if args.model ∈ valid_models then call_api_rest tr args
  else (.retNone, [])

/-- The arguments of the probe request built at lines 79-87. -/
def probeArgs (model : String) : CallInputs :=
  { prompt := "What is the current time in New York? (This requires web search)"
    model := model
    system_prompt := "You are a helpful assistant. If you can\x27t access web search, say \x27I cannot access web search\x27."
    temperature := 7/10
    max_tokens := some 100 }

/-- Line 90: `result['choices'][0]['message']['content']`, which must be a
string for `.lower()` to succeed; `none` models any exception on this
chain, caught at line 93 (`verify_web_search` then returns `False`). -/
def probeContent (j : Json) : Option String :=
  match j with
  | .obj fs =>
    match pyGet fs "choices" with
    | some (.arr (Json.obj f0 :: _)) =>
      match pyGet f0 "message" with
      | some (.obj fm) =>
        match pyGet fm "content" with
        | some (.str s) => some s
        | _ => none
      | _ => none
    | _ => none
  | _ => none

/-- Model of `str.lower()` as used on the probe reply at line 90 (ASCII
case folding; the refusal phrase being pure ASCII, the full Unicode folding
Python performs agrees with this on every character that matters). -/
def pyLower (s : String) : String := String.mk (s.toList.map Char.toLower)

/-- `verify_web_search` (lines 75-95): run the probe call; if it returned a
result with choices, answer whether the reply does not contain the
refusal phrase (case-insensitively); on any failure answer `False`.
Also reports the requests the probe sent. -/
def verify_web_search (tr : RequestData → HttpResponse) (model : String) :
    Bool × List RequestData :=
  let r := call_api_noverify tr (probeArgs model)
  match r.1 with
  | .retResult j =>
    match probeContent j with
    | some s => (!hasSubstr "cannot access web search" (pyLower s), r.2)
    | none => (false, r.2)
  | _ => (.false, r.2)

/-- `call_api` (lines 97-222).  `tr` is the network oracle;
`continueAnyway` models the interactive `input("Continue anyway? (y/n): ")`
at line 133.  The second component is the trace of requests sent through
`requests.post`, in order: the probe request (when `verify_web` is set and
reaches the probe) followed by the main request (when one is sent). -/
def call_api (tr : RequestData → HttpResponse) (continueAnyway : Bool)
    (args : CallInputs) : CallOutcome × List RequestData :=
  if args.model ∉ valid_models then (.retNone, [])
  else if args.verify_web then
    let pr := verify_web_search tr args.model
    if pr.1 = false ∧ continueAnyway = false then (.retNone, pr.2)
    else
      let rest := call_api_rest tr args
      (rest.1, pr.2 ++ rest.2)
  else call_api_rest tr args

/-! Helper lemmas about the stream loop. -/

theorem streamFragments_cons_done {l : String} {ls : List String}
    (h : processLine l = .done) : streamFragments (l :: ls) = [] := by
  simp [streamFragments, h]

theorem streamFragments_cons_skip {l : String} {ls : List String}
    (h : processLine l = .skip) : streamFragments (l :: ls) = streamFragments ls := by
  simp [streamFragments, h]

theorem streamFragments_cons_frag {l : String} {ls : List String} {c : Json}
    (h : processLine l = .frag c) : streamFragments (l :: ls) = c :: streamFragments ls := by
  simp [streamFragments, h]

/-- A skipped line contributes nothing and does not change what the rest of
the stream produces. -/
theorem streamFragments_skip_middle {b : String} (pre post : List String)
    (hskip : processLine b = .skip) :
    streamFragments (pre ++ b :: post) = streamFragments (pre ++ post) := by
  induction pre with
  | nil =>
    simpa using @streamFragments_cons_skip b post hskip
  | cons l ls ih =>
    simp only [List.cons_append]
    cases hpl : processLine l with
    | done => rw [streamFragments_cons_done hpl, streamFragments_cons_done hpl]
    | skip => rw [streamFragments_cons_skip hpl, streamFragments_cons_skip hpl]; exact ih
    | frag c => rw [streamFragments_cons_frag hpl, streamFragments_cons_frag hpl, ih]

/-- First line of the C1 stream. -/
def c1line1 : String := "data: \x7b\"choices\":[\x7b\"delta\":\x7b\"content\":\"He\"\x7d\x7d]\x7d"

/-- Second line of the C1 stream. -/
def c1line2 : String := "data: \x7b\"choices\":[\x7b\"delta\":\x7b\"content\":\"llo\"\x7d\x7d]\x7d"

/-- Terminator line of the C1 stream. -/
def c1line3 : String := "data: [DONE]"

/-- C1: on the line sequence
`["data: {"choices":[{"delta":{"content":"He"}}]}",
"data: {"choices":[{"delta":{"content":"llo"}}]}", "data: [DONE]"]`
the stream handler produces exactly the fragments `"He"` then `"llo"` in
that order, and the trimmed `"[DONE]"` sentinel terminates the sequence:
whatever lines follow it, no further fragment is produced. -/
theorem c1_stream_fragments_and_done (rest : List String) :
    streamFragments (c1line1 :: c1line2 :: c1line3 :: rest) =
      [Json.str "He", Json.str "llo"] := by
  have h1 : processLine c1line1 = .frag (.str "He") := by rfl
  have h2 : processLine c1line2 = .frag (.str "llo") := by rfl
  have h3 : processLine c1line3 = .done := by rfl
  rw [streamFragments_cons_frag h1, streamFragments_cons_frag h2,
    streamFragments_cons_done h3]

/-- C2: a nonempty line that is not the sentinel and whose payload fails to
decode as JSON is skipped: it neither terminates the stream nor changes any
fragment produced by the surrounding lines. -/
theorem c2_decode_failure_skipped (pre post : List String) (b : String)
    (hne : b.toList ≠ [])
    (hnd : pyStrip (stripDataHeader b) ≠ "[DONE]")
    (hparse : pyJsonLoads (stripDataHeader b) = none) :
    streamFragments (pre ++ b :: post) = streamFragments (pre ++ post) := by
  have hskip : processLine b = .skip := by
    simp [processLine, hne, hnd, hparse]
  exact streamFragments_skip_middle pre post hskip

/-- The corrupted line used to witness C2. -/
def c2bad : String := "data: \x7bbad json"

/-- Witness for C2: the corrupted line `"data: {bad json"` placed between
the two content lines of C1 is skipped and both fragments still appear. -/
theorem c2_witness :
    c2bad.toList ≠ [] ∧
    pyStrip (stripDataHeader c2bad) ≠ "[DONE]" ∧
    pyJsonLoads (stripDataHeader c2bad) = none ∧
    streamFragments ([c1line1] ++ c2bad :: [c1line2, c1line3]) =
      streamFragments ([c1line1] ++ [c1line2, c1line3]) :=
  ⟨by decide, by decide, by rfl,
    c2_decode_failure_skipped [c1line1] [c1line2, c1line3] c2bad
      (by decide) (by decide) (by rfl)⟩

/-- The content value emitted for a chunk is always truthy: the emission at
line 242 is guarded by `if content:`. -/
theorem deltaContent_truthy : ∀ {j c : Json}, deltaContent j = some c → pyTruthy c = true := by
  intro j c h
  unfold deltaContent at h
  repeat' split at h
  all_goals try simp_all
  all_goals exact h.2 ▸ h.1

/-- A fragment only arises from a decoded chunk with truthy content. -/
theorem processLine_frag_truthy {l : String} {c : Json}
    (h : processLine l = .frag c) : pyTruthy c = true := by
  simp only [processLine] at h
  repeat' split at h
  all_goals first
    | exact deltaContent_truthy (by assumption)
    | (try simp_all)
  all_goals subst h
  all_goals exact deltaContent_truthy (by assumption)

/-- Every fragment the stream loop ever emits is truthy. -/
theorem streamFragments_truthy :
    ∀ (lines : List String) (c : Json), c ∈ streamFragments lines → pyTruthy c = true := by
  intro lines
  induction lines with
  | nil => intro c hc; simp [streamFragments] at hc
  | cons l ls ih =>
    intro c hc
    cases hpl : processLine l with
    | done => rw [streamFragments_cons_done hpl] at hc; cases hc
    | skip => rw [streamFragments_cons_skip hpl] at hc; exact ih c hc
    | frag d =>
      rw [streamFragments_cons_frag hpl] at hc
      rcases List.mem_cons.mp hc with h | h
      · subst h; exact processLine_frag_truthy hpl
      · exact ih c h

/-- C10: a decoded chunk whose first choice lacks a `delta` object, lacks a
`content` field, or carries an empty-string content produces no fragment
and no error — the line is simply passed over and the stream continues —
and consequently every fragment ever produced is truthy, so every string
fragment is nonempty. -/
theorem c10_no_empty_fragments :
    (∀ (lines : List String) (c : Json), c ∈ streamFragments lines → pyTruthy c = true) ∧
    (∀ (lines : List String) (s : String), Json.str s ∈ streamFragments lines → s ≠ "") ∧
    (∀ (fs f0 : List (String × Json)) (rest : List Json),
      pyGet fs "choices" = some (.arr (Json.obj f0 :: rest)) →
      pyGet f0 "delta" = none →
      deltaContent (.obj fs) = none) ∧
    (∀ (fs f0 fd : List (String × Json)) (rest : List Json),
      pyGet fs "choices" = some (.arr (Json.obj f0 :: rest)) →
      pyGet f0 "delta" = some (.obj fd) →
      pyGet fd "content" = none →
      deltaContent (.obj fs) = none) ∧
    (∀ (fs f0 fd : List (String × Json)) (rest : List Json),
      pyGet fs "choices" = some (.arr (Json.obj f0 :: rest)) →
      pyGet f0 "delta" = some (.obj fd) →
      pyGet fd "content" = some (.str "") →
      deltaContent (.obj fs) = none) ∧
    (∀ (pre post : List String) (l : String) (j : Json),
      l.toList ≠ [] →
      pyStrip (stripDataHeader l) ≠ "[DONE]" →
      pyJsonLoads (stripDataHeader l) = some j →
      deltaContent j = none →
      streamFragments (pre ++ l :: post) = streamFragments (pre ++ post)) := by
  refine ⟨streamFragments_truthy, ?_, ?_, ?_, ?_, ?_⟩
  · intro lines s hs hempty
    have := streamFragments_truthy lines (Json.str s) hs
    subst hempty
    exact absurd this (by decide)
  · intro fs f0 rest h1 h2
    simp [deltaContent, h1, h2, pyTruthy, pyGet]
    rfl
  · intro fs f0 fd rest h1 h2 h3
    simp [deltaContent, h1, h2, h3, pyTruthy]
    rfl
  · intro fs f0 fd rest h1 h2 h3
    simp [deltaContent, h1, h2, h3, pyTruthy]
    rfl
  · intro pre post l j hne hnd hload hdc
    have hskip : processLine l = .skip := by
      simp [processLine, hne, hnd, hload, hdc]
    exact streamFragments_skip_middle pre post hskip

/-- A stream line whose chunk has a choice but no delta, used to witness C10. -/
def c10line : String := "data: \x7b\"choices\":[\x7b\x7d]\x7d"

/-- Witness for C10: concrete instances of each conjunct. -/
theorem c10_witness :
    pyTruthy (Json.str "He") = true ∧
    "He" ≠ "" ∧
    deltaContent (.obj [("choices", .arr [Json.obj []])]) = none ∧
    deltaContent (.obj [("choices", .arr [Json.obj [("delta", Json.obj [])]])]) = none ∧
    deltaContent (.obj [("choices", .arr [Json.obj [("delta", Json.obj [("content", Json.str "")])]])]) = none ∧
    streamFragments ([] ++ c10line :: [c1line1]) = streamFragments ([] ++ [c1line1]) := by
  have hmem : Json.str "He" ∈ streamFragments [c1line1] := by
    rw [show streamFragments [c1line1] = [Json.str "He"] from rfl]
    exact List.mem_singleton.mpr rfl
  refine ⟨?_, ?_, ?_, ?_, ?_, ?_⟩
  · exact c10_no_empty_fragments.1 [c1line1] (Json.str "He") hmem
  · exact c10_no_empty_fragments.2.1 [c1line1] "He" hmem
  · exact c10_no_empty_fragments.2.2.1 [("choices", .arr [Json.obj []])] [] [] (by rfl) (by rfl)
  · exact c10_no_empty_fragments.2.2.2.1 [("choices", .arr [Json.obj [("delta", Json.obj [])]])]
      [("delta", Json.obj [])] [] [] (by rfl) (by rfl) (by rfl)
  · exact c10_no_empty_fragments.2.2.2.2.1
      [("choices", .arr [Json.obj [("delta", Json.obj [("content", Json.str "")])]])]
      [("delta", Json.obj [("content", Json.str "")])] [("content", Json.str "")] []
      (by rfl) (by rfl) (by rfl)
  · exact c10_no_empty_fragments.2.2.2.2.2 [] [c1line1] c10line (Json.obj [("choices", .arr [Json.obj []])])
      (by decide) (by decide) (by rfl) (by rfl)

/-! Helper lemmas and fixtures for the `call_api` claims. -/

/-- The catalog's name set, spelled out. -/
theorem valid_models_eq :
    valid_models = ["sonar", "sonar-pro", "sonar-reasoning", "sonar-reasoning-pro",
      "sonar-deep-research", "r1-1776"] := rfl

/-- The two synthesized messages always pass the validation loop. -/
theorem defaultMessages_valid (sp p : String) :
    firstMsgError (defaultMessages sp p) = none := by
  simp [defaultMessages, firstMsgError, msgCheck, pyGetS, roles]

/-- A trivial network oracle used by witnesses. -/
def trZero : RequestData → HttpResponse := fun _ => { status := 200, body := "", lines := [] }

/-- C3: the request builder never rejects an out-of-range numeric: the
serialized temperature is `max(0.0, min(1.0, t))` — hence always in
`[0, 1]`, with `-5 ↦ 0`, `0.5 ↦ 0.5`, `3 ↦ 1` — and `max_tokens`, when
supplied, is `max(1, m)` — `-10 ↦ 1`, `0 ↦ 1`, `500 ↦ 500` — and is absent
from the payload when not supplied. -/
theorem c3_numeric_clamping (args : CallInputs) (msgs : List PyMsg) :
    (buildData args msgs).temperature = max 0 (min 1 args.temperature) ∧
    0 ≤ (buildData args msgs).temperature ∧
    (buildData args msgs).temperature ≤ 1 ∧
    (buildData args msgs).max_tokens = args.max_tokens.map (fun m => max 1 m) ∧
    (buildData { prompt := "p", temperature := -5 } msgs).temperature = 0 ∧
    (buildData { prompt := "p", temperature := 1/2 } msgs).temperature = 1/2 ∧
    (buildData { prompt := "p", temperature := 3 } msgs).temperature = 1 ∧
    (buildData { prompt := "p", max_tokens := some (-10) } msgs).max_tokens = some 1 ∧
    (buildData { prompt := "p", max_tokens := some 0 } msgs).max_tokens = some 1 ∧
    (buildData { prompt := "p", max_tokens := some 500 } msgs).max_tokens = some 500 ∧
    (buildData { prompt := "p" } msgs).max_tokens = none := by
  refine ⟨rfl, le_max_left 0 _, max_le zero_le_one (min_le_left 1 _), rfl,
    ?_, ?_, ?_, ?_, ?_, ?_, rfl⟩
  all_goals simp [buildData]
  all_goals norm_num

set_option maxRecDepth 4000 in
/-- C4: an unknown model name makes `call_api` fail immediately — it
returns `None` and no request at all is sent — and the printed error
payload names every valid model. -/
theorem c4_invalid_model (tr : RequestData → HttpResponse) (ca : Bool) (args : CallInputs)
    (h : args.model ∉ valid_models) :
    call_api tr ca args = (.retNone, []) ∧
    (∀ name ∈ valid_models, hasSubstr name (invalidModelMessage args.model) = true) := by
  constructor
  · simp [call_api, h]
  · intro name hn
    apply decide_eq_true
    have hjoin : name.toList <:+: (String.intercalate ", " valid_models).toList := by
      fin_cases hn <;> decide
    have hmsg : (invalidModelMessage args.model).toList =
        ("Error: Invalid model \x27" ++ args.model ++ "\x27. Available models are: ").toList
          ++ (String.intercalate ", " valid_models).toList := by
      simp [invalidModelMessage, String.toList, String.data_append, String.append_assoc]
    show name.toList <:+: (invalidModelMessage args.model).toList
    rw [hmsg]
    exact hjoin.trans (List.suffix_append _ _).isInfix

/-- Witness for C4: `model="not-a-real-model"` is rejected with no request
sent, and `"sonar"` appears in the error payload. -/
theorem c4_witness :
    ("not-a-real-model" ∉ valid_models) ∧
    call_api trZero true { prompt := "x", model := "not-a-real-model" } = (.retNone, []) ∧
    hasSubstr "sonar" (invalidModelMessage "not-a-real-model") = true := by
  refine ⟨by decide, ?_, ?_⟩
  · exact (c4_invalid_model trZero true { prompt := "x", model := "not-a-real-model" } (by decide)).1
  · exact (c4_invalid_model trZero true { prompt := "x", model := "not-a-real-model" } (by decide)).2
      "sonar" (by decide)

/-- If some message fails a check, the validation loop raises. -/
theorem firstMsgError_of_bad {msgs : List PyMsg}
    (h : ∃ m ∈ msgs, msgCheck m ≠ none) : ∃ e, firstMsgError msgs = some e := by
  induction msgs with
  | nil => rcases h with ⟨m, hm, _⟩; cases hm
  | cons m ms ih =>
    rcases h with ⟨m0, hm0, hbad⟩
    cases hmc : msgCheck m with
    | some e => exact ⟨e, by simp [firstMsgError, hmc]⟩
    | none =>
      rcases List.mem_cons.mp hm0 with rfl | hmem
      · exact absurd hmc hbad
      · obtain ⟨e, he⟩ := ih ⟨m0, hmem, hbad⟩
        exact ⟨e, by simp [firstMsgError, hmc, he]⟩

/-- C5: a batch containing any message that lacks a `role` field, lacks a
`content` field, or has a role outside the closed set makes the call raise
`ValueError` with no request sent at all: the whole batch is rejected and
nothing is serialized. -/
theorem c5_invalid_message (tr : RequestData → HttpResponse) (ca : Bool)
    (args : CallInputs) (msgs : List PyMsg)
    (hmsgs : args.messages = some msgs)
    (hmodel : args.model ∈ valid_models)
    (hverify : args.verify_web = false)
    (hbad : ∃ m ∈ msgs, msgCheck m ≠ none) :
    ∃ e, call_api tr ca args = (.raiseValueError e, []) := by
  obtain ⟨e, he⟩ := firstMsgError_of_bad hbad
  exact ⟨e, by simp [call_api, hmodel, hverify, call_api_rest, hmsgs, he]⟩

/-- The message batch with the out-of-set role used to witness C5. -/
def c5batch : List PyMsg := [[("role", "bogus"), ("content", "x")]]

/-- The call arguments used to witness C5. -/
def c5args : CallInputs := { prompt := "x", model := "sonar", messages := some c5batch }

/-- Witness for C5: `messages=[{"role":"bogus","content":"x"}]` raises
`ValueError` and sends nothing. -/
theorem c5_witness :
    c5args.messages = some c5batch ∧
    c5args.model ∈ valid_models ∧
    c5args.verify_web = false ∧
    (∃ m ∈ c5batch, msgCheck m ≠ none) ∧
    (∃ e, call_api trZero true c5args = (.raiseValueError e, [])) := by
  refine ⟨rfl, by decide, rfl, ⟨_, List.mem_singleton.mpr rfl, by decide⟩, ?_⟩
  exact c5_invalid_message trZero true c5args c5batch rfl (by decide) rfl
    ⟨_, List.mem_singleton.mpr rfl, by decide⟩

/-- C6: when no explicit message list is supplied, the request that is sent
carries exactly two messages, in order: a `system` message with the
supplied system prompt (whose Python default is "Be precise and concise."),
then a `user` message with the prompt text. -/
theorem c6_synthesized_messages (tr : RequestData → HttpResponse) (ca : Bool)
    (args : CallInputs)
    (hm : args.messages = none)
    (hmodel : args.model ∈ valid_models)
    (hv : args.verify_web = false) :
    (call_api tr ca args).2 =
      [buildData args [[("role", "system"), ("content", args.system_prompt)],
                       [("role", "user"), ("content", args.prompt)]]] ∧
    (buildData args (defaultMessages args.system_prompt args.prompt)).messages =
      [[("role", "system"), ("content", args.system_prompt)],
       [("role", "user"), ("content", args.prompt)]] ∧
    (∀ p : String, ({ prompt := p } : CallInputs).system_prompt = "Be precise and concise.") := by
  refine ⟨?_, rfl, fun _ => rfl⟩
  have hfme := defaultMessages_valid args.system_prompt args.prompt
  simp only [call_api, hmodel, hv]
  rw [if_neg (by simp [hmodel]), if_neg (by simp [hv])]
  simp only [call_api_rest, hm, Option.getD_some, Option.getD_none, hfme]
  repeat' split
  all_goals rfl

/-- Witness for C6: `call_api(prompt="Hi")` sends the two default messages. -/
theorem c6_witness :
    (call_api trZero true { prompt := "Hi" }).2 =
      [buildData { prompt := "Hi" }
        [[("role", "system"), ("content", "Be precise and concise.")],
         [("role", "user"), ("content", "Hi")]]] ∧
    ({ prompt := "Hi" } : CallInputs).system_prompt = "Be precise and concise." := by
  refine ⟨?_, rfl⟩
  exact (c6_synthesized_messages trZero true { prompt := "Hi" } rfl (by decide) rfl).1

/-- C7: a synchronous 200 response whose body decodes to an object with no
`choices` entry, or with a falsy (empty) one, makes the call return the
failure value `None`, not a successful result. -/
theorem c7_empty_choices (tr : RequestData → HttpResponse) (ca : Bool)
    (args : CallInputs) (fs : List (String × Json))
    (hm : args.messages = none)
    (hmodel : args.model ∈ valid_models)
    (hv : args.verify_web = false)
    (hs : args.stream = false)
    (hstatus : (tr (buildData args (defaultMessages args.system_prompt args.prompt))).status = 200)
    (hbody : pyJsonLoads
        (tr (buildData args (defaultMessages args.system_prompt args.prompt))).body
      = some (.obj fs))
    (hchoices : ∀ c, pyGet fs "choices" = some c → pyTruthy c = false) :
    (call_api tr ca args).1 = .retNone := by
  have hfme := defaultMessages_valid args.system_prompt args.prompt
  simp only [call_api]
  rw [if_neg (by simp [hmodel]), if_neg (by simp [hv])]
  simp only [call_api_rest, hm, Option.getD_none, hfme]
  rw [if_neg (by rw [hstatus]; omega), if_neg (by simp [hs]), hbody]
  simp only [syncHandle]
  cases hg : pyGet fs "choices" with
  | none => rfl
  | some c => simp [hchoices c hg]

/-- The oracle answering `{"choices": []}` used to witness C7. -/
def tr7 : RequestData → HttpResponse :=
  fun _ => { status := 200, body := "\x7b\"choices\": []\x7d", lines := [] }

/-- Witness for C7: a 200 response with body `{"choices": []}` yields
`None`. -/
theorem c7_witness :
    pyJsonLoads "\x7b\"choices\": []\x7d" = some (.obj [("choices", .arr [])]) ∧
    (call_api tr7 true { prompt := "Hi" }).1 = .retNone := by
  refine ⟨rfl, c7_empty_choices tr7 true { prompt := "Hi" } [("choices", .arr [])]
    rfl (by decide) rfl rfl rfl rfl ?_⟩
  intro c hc
  rw [show pyGet [("choices", Json.arr [])] "choices" = some (.arr []) from rfl] at hc
  cases hc
  rfl

/-- The oracle whose probe reply has content, used in the C8 counterexample. -/
def tr8 : RequestData → HttpResponse :=
  fun _ => { status := 200
             body := "\x7b\"choices\":[\x7b\"message\":\x7b\"content\":\"It is 3pm in New York\"\x7d\x7d]\x7d"
             lines := [] }

/-- The C8 counterexample arguments: an invalid message together with
`verify_web=True`. -/
def args8 : CallInputs :=
  { prompt := "x", model := "sonar"
    messages := some [[("role", "bogus"), ("content", "x")]]
    verify_web := true }

/-- Counterexample to C8: with `verify_web=True` and an invalid message
batch, the call does raise `ValueError` (its inputs fail validation), yet
one request — the capability probe — has already been sent: the trace is
nonempty, refuting "no request is ever sent when the call's inputs fail
validation". -/
theorem c8_counterexample :
    (call_api tr8 true args8).1 = .raiseValueError roleErrorMsg ∧
    (call_api tr8 true args8).2.length = 1 ∧
    (call_api tr8 true args8).2 ≠ [] := by
  refine ⟨by rfl, by rfl, fun h => ?_⟩
  have h1 : (call_api tr8 true args8).2.length = 1 := by rfl
  rw [h] at h1
  cases h1

/-- C8 amended: `InvalidModel` is raised before any network request, and
with `verify_web` unset `InvalidMessage` is too; but when `verify_web` is
set the capability probe runs before message validation (the original
claim fails there, see the counterexample). -/
theorem c8_amended_fail_fast (tr : RequestData → HttpResponse) (ca : Bool)
    (args : CallInputs) :
    (args.model ∉ valid_models → call_api tr ca args = (.retNone, [])) ∧
    (args.verify_web = false →
      ∀ msgs, args.messages = some msgs → (∃ m ∈ msgs, msgCheck m ≠ none) →
        (call_api tr ca args).2 = []) := by
  constructor
  · intro h; simp [call_api, h]
  · intro hv msgs hm hbad
    by_cases hmodel : args.model ∈ valid_models
    · obtain ⟨e, he⟩ := firstMsgError_of_bad hbad
      simp [call_api, hmodel, hv, call_api_rest, hm, he]
    · simp [call_api, hmodel]

/-- Witness for the amended C8. -/
theorem c8_amended_witness :
    call_api trZero true { prompt := "x", model := "nope" } = (.retNone, []) ∧
    (call_api trZero true c5args).2 = [] := by
  constructor
  · exact (c8_amended_fail_fast trZero true { prompt := "x", model := "nope" }).1 (by decide)
  · exact (c8_amended_fail_fast trZero true c5args).2 rfl c5batch rfl
      ⟨_, List.mem_singleton.mpr rfl, by decide⟩

/-- C9: a streaming call (valid model, synthesized messages) returns `None`
— the fragments are printed by `_handle_stream`, which has no return value
— and a failed call (for instance an invalid model) returns `None` too, so
the return value alone cannot distinguish the two. -/
theorem c9_stream_returns_none (tr : RequestData → HttpResponse) (ca : Bool)
    (args : CallInputs)
    (hm : args.messages = none)
    (hmodel : args.model ∈ valid_models)
    (hv : args.verify_web = false)
    (hs : args.stream = true) :
    (call_api tr ca args).1 = .retNone ∧
    (∀ (tr2 : RequestData → HttpResponse) (ca2 : Bool) (a2 : CallInputs),
      a2.model ∉ valid_models → (call_api tr2 ca2 a2).1 = .retNone) := by
  constructor
  · have hfme := defaultMessages_valid args.system_prompt args.prompt
    simp only [call_api]
    rw [if_neg (by simp [hmodel]), if_neg (by simp [hv])]
    simp only [call_api_rest, hm, Option.getD_none, hfme, hs]
    split
    all_goals rfl
  · intro tr2 ca2 a2 h
    simp [call_api, h]

/-- The streaming oracle used to witness C9. -/
def tr9 : RequestData → HttpResponse :=
  fun _ => { status := 200, body := "", lines := ["data: [DONE]"] }

/-- Witness for C9: a drained stream and an invalid-model call both return
`None`. -/
theorem c9_witness :
    (call_api tr9 true { prompt := "Hi", stream := true }).1 = .retNone ∧
    (call_api trZero true { prompt := "x", model := "nope" }).1 = .retNone := by
  refine ⟨(c9_stream_returns_none tr9 true { prompt := "Hi", stream := true }
    rfl (by decide) rfl rfl).1, ?_⟩
  exact (c9_stream_returns_none tr9 true { prompt := "Hi", stream := true }
    rfl (by decide) rfl rfl).2 trZero true { prompt := "x", model := "nope" } (by decide)

end SonarApi
